import Mathlib

/-!
# Verification of the Conductor worker task-runner engine

Shallow embedding of `go-worker-service/vendor/github.com/conductor-sdk/conductor-go/`
`sdk/worker/task_runner.go` (package `worker`): the `TaskRunner` state, its public
lifecycle operations (`StartWorker`, `RegisterWorker`, `SetBatchSize`,
`IncreaseBatchSize`, `DecreaseBatchSize`, `Pause`, `Resume`, `Shutdown`), the poll
loop body (`workOnce`), task execution (`executeTask`, `executeAndUpdateTask`) and
result delivery with retry (`updateTaskWithRetry`).

Go maps `map[string]V` are embedded as association lists `List (String × V)`; a read
of a missing key yields the zero value, exactly as in Go.  Durations are carried as
integer milliseconds.  Network calls (`BatchPoll`, `UpdateTask`) are external
collaborators and enter the model as explicit oracles (functions supplied per call).
Goroutine spawning is tracked by a ghost field `activeLoops` counting the
`work4ever` loops started per task name.
-/

namespace Conductor

/-- Lookup in an association-list embedding of a Go map: `v, ok := m[k]`. -/
def mapLookup {α : Type} : List (String × α) → String → Option α
  | [], _ => none
  | (k', v) :: rest, k => if k' = k then some v else mapLookup rest k

/-- Write to an association-list embedding of a Go map: `m[k] = v`
(replaces the binding if the key is present, appends it otherwise). -/
def mapInsert {α : Type} : List (String × α) → String → α → List (String × α)
  | [], k, v => [(k, v)]
  | (k', v') :: rest, k, v =>
    if k' = k then (k, v) :: rest else (k', v') :: mapInsert rest k v

/-- Removal from an association-list embedding of a Go map: `delete(m, k)`. -/
def mapErase {α : Type} : List (String × α) → String → List (String × α)
  | [], _ => []
  | (k', v') :: rest, k =>
    if k' = k then mapErase rest k else (k', v') :: mapErase rest k

@[simp] theorem mapLookup_nil {α : Type} (k : String) :
    mapLookup ([] : List (String × α)) k = none := rfl

/-! ## Data model (sdk/model) -/
/-- A unit of work handed over by a batch poll (`model.Task`, fields the
runner reads). -/
structure Task where
  taskId : String
  taskDefName : String
  workflowInstanceId : String
deriving Repr, DecidableEq

/-- `model.TaskResultStatus`. -/
inductive TaskResultStatus where
  | completed
  | failed
  | failedWithTerminalError
  | inProgress
deriving Repr, DecidableEq

/-- Outcome of one execution (`model.TaskResult`, fields the runner produces).
The opaque handler output is carried as an optional serialized payload. -/
structure TaskResult where
  taskId : String
  workflowInstanceId : String
  status : TaskResultStatus
  outputData : Option String
  reasonForIncompletion : String
deriving Repr, DecidableEq

/-- Behaviour of one invocation of a user handler (`model.ExecuteTaskFunction`)
on a given task: a normal return `(output, err)` with `err = nil`, a normal
return with a non-nil error, or an uncaught runtime fault (a Go panic). -/
inductive HandlerOutcome where
  | success (output : Option String)
  | failure (err : String) (output : Option String)
  | fault (msg : String)
deriving Repr, DecidableEq

/-- Modelled from the spec: `model.NewTaskResultFromTaskWithError` is vendored
outside `src/`.  Per the spec, a handler error is converted into a FAILED
TaskResult carrying the error's message. -/
def NewTaskResultFromTaskWithError (t : Task) (err : String) : TaskResult :=
  { taskId := t.taskId
    workflowInstanceId := t.workflowInstanceId
    status := .failed
    outputData := none
    reasonForIncompletion := err }

/-- Modelled from the spec: `model.GetTaskResultFromTaskExecutionOutput` is
vendored outside `src/`.  Per the spec, a successful handler value is converted
into a COMPLETED TaskResult with the value serialized into the output payload
(serialization of the opaque payload cannot fail in the model, so the error
branch of the Go signature is never taken). -/
def GetTaskResultFromTaskExecutionOutput (t : Task) (output : Option String) :
    Except String TaskResult :=
  .ok
    { taskId := t.taskId
      workflowInstanceId := t.workflowInstanceId
      status := .completed
      outputData := output
      reasonForIncompletion := "" }

/-- Modelled from the spec: `concurrency.HandlePanicError` is vendored outside
`src/`.  Per the spec, any uncaught runtime fault raised by the handler is
intercepted rather than terminating the loop or the process, so the deferred
recovery always absorbs the panic; `true` means the fault was recovered. -/
def HandlePanicError (_message : String) : Bool := true

/-! ## TaskRunner state -/
/-- The mutable state of a `TaskRunner` (task_runner.go, struct `TaskRunner`).
All `map[string]...` fields are embedded as association lists; durations are
integer milliseconds.  `activeLoops` is ghost instrumentation counting the
`work4ever` goroutines currently running per task name (spawned by
`startWorker`, exited when the loop observes unregistration). -/
structure TaskRunnerState where
  batchSizeByTaskName : List (String × Int)
  runningWorkersByTaskName : List (String × Int)
  pollIntervalByTaskName : List (String × Int)
  pausedWorkers : List (String × Bool)
  pollTimeout : Int
  pollTimeoutByTaskName : List (String × Int)
  activeLoops : List (String × Nat)
deriving Repr, DecidableEq

/-- `NewTaskRunnerWithApiClient`: fresh runner, empty maps, default poll
timeout of -1 ms (negative means the server default is used). -/
def NewTaskRunnerWithApiClient : TaskRunnerState :=
  { batchSizeByTaskName := []
    runningWorkersByTaskName := []
    pollIntervalByTaskName := []
    pausedWorkers := []
    pollTimeout := -1
    pollTimeoutByTaskName := []
    activeLoops := [] }

/-- `getMaxAllowedWorkers`: the task's capacity; 0 when the key is absent.
The Go function's error result is statically `nil` on every path. -/
def getMaxAllowedWorkers (s : TaskRunnerState) (taskName : String) : Int :=
  (mapLookup s.batchSizeByTaskName taskName).getD 0

/-- `getRunningWorkers`: in-flight executions of the task; 0 when absent.
The Go function's error result is statically `nil` on every path. -/
def getRunningWorkers (s : TaskRunnerState) (taskName : String) : Int :=
  (mapLookup s.runningWorkersByTaskName taskName).getD 0

/-- `getAvailableWorkerAmount = allowed - running` (errors impossible: both
reads always succeed). -/
def getAvailableWorkerAmount (s : TaskRunnerState) (taskName : String) : Int :=
  getMaxAllowedWorkers s taskName - getRunningWorkers s taskName

/-- `isWorkerRegistered`: the comma-ok presence test on the batch-size map. -/
def isWorkerRegistered (s : TaskRunnerState) (taskName : String) : Bool :=
  (mapLookup s.batchSizeByTaskName taskName).isSome

/-- `isPaused`: Go map read of a `bool` map, `false` when the key is absent. -/
def isPaused (s : TaskRunnerState) (taskName : String) : Bool :=
  (mapLookup s.pausedWorkers taskName).getD false

/-- `increaseRunningWorkers`: `runningWorkersByTaskName[taskName] += 1`. -/
def increaseRunningWorkers (s : TaskRunnerState) (taskName : String) : TaskRunnerState :=
  { s with runningWorkersByTaskName :=
      mapInsert s.runningWorkersByTaskName taskName (getRunningWorkers s taskName + 1) }

/-- `runningWorkerDone`: `runningWorkersByTaskName[taskName] -= 1`. -/
def runningWorkerDone (s : TaskRunnerState) (taskName : String) : TaskRunnerState :=
  { s with runningWorkersByTaskName :=
      mapInsert s.runningWorkersByTaskName taskName (getRunningWorkers s taskName - 1) }

/-- `increaseMaxAllowedWorkers`: `batchSizeByTaskName[taskName] += batchSize`
(creates the key when absent, as the Go `+=` on a map does). -/
def increaseMaxAllowedWorkers (s : TaskRunnerState) (taskName : String)
    (batchSize : Int) : TaskRunnerState :=
  { s with batchSizeByTaskName :=
      mapInsert s.batchSizeByTaskName taskName (getMaxAllowedWorkers s taskName + batchSize) }

/-- Number of `work4ever` poll-loop goroutines currently running for a task
name (ghost instrumentation). -/
def activeLoopCount (s : TaskRunnerState) (taskName : String) : Nat :=
  (mapLookup s.activeLoops taskName).getD 0

/-- Ghost effect of `go c.work4ever(...)` in `startWorker`: one more poll loop
runs for the task name. -/
def spawnLoop (s : TaskRunnerState) (taskName : String) : TaskRunnerState :=
  { s with activeLoops := mapInsert s.activeLoops taskName (activeLoopCount s taskName + 1) }

/-- Ghost effect of `work4ever` returning once `isWorkerRegistered` is false:
one fewer poll loop runs for the task name. -/
def exitLoop (s : TaskRunnerState) (taskName : String) : TaskRunnerState :=
  { s with activeLoops := mapInsert s.activeLoops taskName (activeLoopCount s taskName - 1) }

/-! ## Lifecycle operations -/
/-- `SetBatchSize`: reject a negative batch size, reject an unregistered task
name, otherwise overwrite the task's capacity. -/
def SetBatchSize (s : TaskRunnerState) (taskName : String) (batchSize : Int) :
    Except String TaskRunnerState :=
  if batchSize < 0 then
    .error "batchSize can not be negative"
  else if !(isWorkerRegistered s taskName) then
    .error ("no worker registered for taskName: " ++ taskName)
  else
    .ok { s with batchSizeByTaskName := mapInsert s.batchSizeByTaskName taskName batchSize }

/-- `IncreaseBatchSize`: reject a non-positive delta, reject an unregistered
task name, otherwise add the delta to the task's capacity. -/
def IncreaseBatchSize (s : TaskRunnerState) (taskName : String) (batchSize : Int) :
    Except String TaskRunnerState :=
  if batchSize < 1 then
    .error "batchSize value must be positive"
  else if !(isWorkerRegistered s taskName) then
    .error ("no worker registered for taskName: " ++ taskName)
  else
    .ok { s with batchSizeByTaskName :=
                   mapInsert s.batchSizeByTaskName taskName
                     (getMaxAllowedWorkers s taskName + batchSize) }

/-- `DecreaseBatchSize`: reject a non-positive delta, reject an unregistered
task name, otherwise subtract the delta and, when `previous - batchSize <= 0`,
overwrite the stored capacity with 0 (the two successive map writes of the
source are kept). -/
def DecreaseBatchSize (s : TaskRunnerState) (taskName : String) (batchSize : Int) :
    Except String TaskRunnerState :=
  if batchSize < 1 then
    .error "batchSize value must be positive"
  else if !(isWorkerRegistered s taskName) then
    .error ("no worker registered for taskName: " ++ taskName)
  else
    let previous := getMaxAllowedWorkers s taskName
    let s1 := { s with batchSizeByTaskName :=
                         mapInsert s.batchSizeByTaskName taskName (previous - batchSize) }
    if previous - batchSize ≤ 0 then
      .ok { s1 with batchSizeByTaskName := mapInsert s1.batchSizeByTaskName taskName 0 }
    else
      .ok s1

/-- `Pause`: `pausedWorkers[taskName] = true`. -/
def Pause (s : TaskRunnerState) (taskName : String) : TaskRunnerState :=
  { s with pausedWorkers := mapInsert s.pausedWorkers taskName true }

/-- `Resume`: `pausedWorkers[taskName] = false`. -/
def Resume (s : TaskRunnerState) (taskName : String) : TaskRunnerState :=
  { s with pausedWorkers := mapInsert s.pausedWorkers taskName false }

/-- `Shutdown`: delete every per-task entry (capacity, paused flag, poll
interval, poll-timeout override) for the task name. -/
def Shutdown (s : TaskRunnerState) (taskName : String) : TaskRunnerState :=
  { s with
      batchSizeByTaskName := mapErase s.batchSizeByTaskName taskName
      pausedWorkers := mapErase s.pausedWorkers taskName
      pollIntervalByTaskName := mapErase s.pollIntervalByTaskName taskName
      pollTimeoutByTaskName := mapErase s.pollTimeoutByTaskName taskName }

/-- `SetPollIntervalForTask` (the Go error result is statically `nil`). -/
def SetPollIntervalForTask (s : TaskRunnerState) (taskName : String)
    (pollIntervalMs : Int) : TaskRunnerState :=
  { s with pollIntervalByTaskName := mapInsert s.pollIntervalByTaskName taskName pollIntervalMs }

/-- `GetPollIntervalForTask`: errors when no interval is registered. -/
def GetPollIntervalForTask (s : TaskRunnerState) (taskName : String) : Except String Int :=
  match mapLookup s.pollIntervalByTaskName taskName with
  | none => .error ("poll interval not registered for task: " ++ taskName)
  | some d => .ok d

/-- `SetPollTimeoutForTask` (the Go error result is statically `nil`). -/
def SetPollTimeoutForTask (s : TaskRunnerState) (taskName : String)
    (pollTimeoutMs : Int) : TaskRunnerState :=
  { s with pollTimeoutByTaskName := mapInsert s.pollTimeoutByTaskName taskName pollTimeoutMs }

/-- `GetPollTimeoutForTask`: the per-task override when present, otherwise the
runner-wide default (never an error). -/
def GetPollTimeoutForTask (s : TaskRunnerState) (taskName : String) : Int :=
  match mapLookup s.pollTimeoutByTaskName taskName with
  | none => s.pollTimeout
  | some d => d

/-- A user handler reference (`model.ExecuteTaskFunction`): Go function values
are nilable, so the reference is optional; the function itself maps a task to
the behaviour of that invocation. -/
def ExecuteTaskFunction : Type := Option (Task → HandlerOutcome)

/-- Calling a handler reference: calling a nil Go function panics. -/
def callHandler (f : ExecuteTaskFunction) (t : Task) : HandlerOutcome :=
  match f with
  | none => .fault "runtime error: invalid memory address or nil pointer dereference"
  | some g => g t

/-- Result of `startWorker`: the new state, whether a `work4ever` goroutine was
spawned, and the returned error. -/
structure StartWorkerResult where
  state : TaskRunnerState
  spawned : Bool
  ret : Except String Unit

/-- `startWorker` (private): store the poll interval (the returned error is
discarded by the source), unconditionally resume the task, add `batchSize` to
the capacity, and spawn a new poll-loop goroutine exactly when the capacity
before the call was below 1.  No validation is performed on `executeFunction`;
the error paths of the source bubble up from calls that never fail, so the
returned error is always `nil`. -/
def startWorker (s : TaskRunnerState) (taskName : String)
    (_executeFunction : ExecuteTaskFunction) (batchSize : Int)
    (pollIntervalMs : Int) (_taskDomain : String) : StartWorkerResult :=
  let s1 := SetPollIntervalForTask s taskName pollIntervalMs
  let s2 := Resume s1 taskName
  let previousMaxAllowedWorkers := getMaxAllowedWorkers s2 taskName
  let s3 := increaseMaxAllowedWorkers s2 taskName batchSize
  if previousMaxAllowedWorkers < 1 then
    { state := spawnLoop s3 taskName, spawned := true, ret := .ok () }
  else
    { state := s3, spawned := false, ret := .ok () }

/-- `StartWorker`: `startWorker` with an empty domain. -/
def StartWorker (s : TaskRunnerState) (taskName : String)
    (executeFunction : ExecuteTaskFunction) (batchSize : Int)
    (pollIntervalMs : Int) : StartWorkerResult :=
  startWorker s taskName executeFunction batchSize pollIntervalMs ""

/-- `StartWorkerWithDomain`: `startWorker` with the provided domain. -/
def StartWorkerWithDomain (s : TaskRunnerState) (taskName : String)
    (executeFunction : ExecuteTaskFunction) (batchSize : Int)
    (pollIntervalMs : Int) (domain : String) : StartWorkerResult :=
  startWorker s taskName executeFunction batchSize pollIntervalMs domain

/-- What a `Worker` interface value exposes to `RegisterWorker` (worker.go):
its task name, handler reference and options. -/
structure WorkerSpec where
  taskName : String
  handler : ExecuteTaskFunction
  batchSize : Int
  pollIntervalMs : Int
  pollTimeoutMs : Int
  domain : String

/-- `RegisterWorker`: reject a nil `Worker`; otherwise apply the per-task poll
interval and (when non-zero) poll timeout and delegate to `startWorker`. -/
def RegisterWorker (s : TaskRunnerState) (w : Option WorkerSpec) : StartWorkerResult :=
  match w with
  | none => { state := s, spawned := false, ret := .error "worker is nil" }
  | some w =>
    let s1 := SetPollIntervalForTask s w.taskName w.pollIntervalMs
    let s2 := if w.pollTimeoutMs ≠ 0 then SetPollTimeoutForTask s1 w.taskName w.pollTimeoutMs else s1
    startWorker s2 w.taskName w.handler w.batchSize w.pollIntervalMs w.domain

/-! ## Poll loop body (`workOnce`) -/
/-- `sleepForOnNoAvailableWorker` (milliseconds). -/
def sleepForOnNoAvailableWorkerMs : Int := 10

/-- `sleepForOnGenericError` (milliseconds). -/
def sleepForOnGenericErrorMs : Int := 200

/-- Observable actions of the engine. -/
inductive Event where
  /-- a batch-poll network call was issued for the task name with the given
  requested count -/
  | polled (taskName : String) (count : Int)
  /-- an execution goroutine was dispatched for the task -/
  | dispatched (taskName : String) (taskId : String)
  /-- a TaskResult was handed to the result reporter (`updateTaskWithRetry`) -/
  | reported (taskName : String) (result : TaskResult)
  /-- the loop slept for the given number of milliseconds -/
  | sleptMs (ms : Int)
  /-- `startWorker` spawned a `work4ever` goroutine for the task name -/
  | loopStarted (taskName : String)
  /-- a `work4ever` goroutine for the task name observed unregistration and
  returned -/
  | loopExited (taskName : String)
  /-- `runningWorkerDone` ran for the task name (capacity released) -/
  | released (taskName : String)
deriving Repr, DecidableEq

/-- The dispatch loop at the end of `workOnce`: for every polled task,
`increaseRunningWorkers` runs first, then the execution goroutine is
dispatched. -/
def dispatchAll (s : TaskRunnerState) (taskName : String) :
    List Task → TaskRunnerState × List Event
  | [] => (s, [])
  | t :: rest =>
    let s1 := increaseRunningWorkers s taskName
    let (s2, evs) := dispatchAll s1 taskName rest
    (s2, .dispatched taskName t.taskId :: evs)

/-- Result of one `workOnce` iteration: the new state, the emitted events, and
the requested batch size when a batch poll was issued. -/
structure WorkOnceResult where
  state : TaskRunnerState
  events : List Event
  polled : Option Int
deriving Repr

/-- `workOnce`: skip (with a generic-error backoff) when paused; compute the
available worker amount (never an error in the source: both map reads default
missing keys to 0); back off when it is below 1; otherwise issue one batch
poll for exactly that amount.  `pollFn` is the external `batchPoll` collaborator:
given the requested count it returns the polled tasks or a network error (the
204 no-content response is the empty list).  A poll error backs off; an empty
batch sleeps the task's poll interval; a nonempty batch reserves one running
worker per task and dispatches it. -/
def workOnce (s : TaskRunnerState) (taskName : String)
    (pollFn : Int → Except String (List Task)) : WorkOnceResult :=
  if isPaused s taskName then
    { state := s, events := [.sleptMs sleepForOnGenericErrorMs], polled := none }
  else
    let batchSize := getAvailableWorkerAmount s taskName
    if batchSize < 1 then
      { state := s, events := [.sleptMs sleepForOnNoAvailableWorkerMs], polled := none }
    else
      match pollFn batchSize with
      | .error _ =>
        { state := s
          events := [.polled taskName batchSize, .sleptMs sleepForOnGenericErrorMs]
          polled := some batchSize }
      | .ok tasks =>
        if tasks.length < 1 then
          match GetPollIntervalForTask s taskName with
          | .error _ =>
            { state := s
              events := [.polled taskName batchSize, .sleptMs sleepForOnGenericErrorMs]
              polled := some batchSize }
          | .ok d =>
            { state := s
              events := [.polled taskName batchSize, .sleptMs d]
              polled := some batchSize }
        else
          let (s2, evs) := dispatchAll s taskName tasks
          { state := s2
            events := .polled taskName batchSize :: evs
            polled := some batchSize }

/-! ## Execution wrapper and result reporter -/
/-- `executeTask`: run the handler invocation outcome through the
result-conversion chain of the source.  The `Except` error case models a panic
escaping `executeTask` (the source installs no recovery here). -/
def executeTask (t : Task) (outcome : HandlerOutcome) : Except String TaskResult :=
  match outcome with
  | .fault msg => .error msg
  | .success output =>
    match GetTaskResultFromTaskExecutionOutput t output with
    | .error e => .ok (NewTaskResultFromTaskWithError t e)
    | .ok tr => .ok tr
  | .failure err output =>
    if output.isNone then
      .ok (NewTaskResultFromTaskWithError t err)
    else
      match GetTaskResultFromTaskExecutionOutput t output with
      | .error e => .ok (NewTaskResultFromTaskWithError t e)
      | .ok tr => .ok tr

/-- `taskUpdateRetryAttemptsLimit`. -/
def taskUpdateRetryAttemptsLimit : Nat := 3

/-- The error returned by `updateTaskWithRetry` when every attempt failed
(`fmt.Errorf("failed to update task %s after %d attempts. %s", ...)`). -/
def updateFailureMessage (taskName : String) (lastError : String) : String :=
  "failed to update task " ++ taskName ++ " after " ++
    toString taskUpdateRetryAttemptsLimit ++ " attempts. " ++ lastError

/-- Trace of one `updateTaskWithRetry` call: the seconds slept before each
retry, in order; the number of `updateTask` attempts issued; and the returned
error, if any. -/
instance : DecidableEq (Except String Unit) := fun a b =>
  match a, b with
  | .ok (), .ok () => isTrue rfl
  | .ok (), .error _ => isFalse (by simp)
  | .error _, .ok () => isFalse (by simp)
  | .error e, .error e' =>
    if h : e = e' then isTrue (by rw [h]) else isFalse (by simp [h])

structure RetryTrace where
  sleepsSec : List Nat
  attempts : Nat
  result : Except String Unit
deriving Repr, DecidableEq

/-- The `for attempt := 0; attempt <= taskUpdateRetryAttemptsLimit; attempt++`
loop of `updateTaskWithRetry`, iterated over the list of attempt indices.
`upd` is the external `updateTask` collaborator giving the outcome of the i-th
attempt.  Before attempt `k > 0` the loop sleeps `k * 10` seconds; the first
successful attempt returns immediately; falling off the loop returns the
formatted error carrying the last attempt's error. -/
def retryAttemptLoop (taskName : String) (upd : Nat → Except String Unit) :
    List Nat → String → RetryTrace
  | [], lastError =>
    { sleepsSec := [], attempts := 0, result := .error (updateFailureMessage taskName lastError) }
  | attempt :: rest, _lastError =>
    let sleepsHere : List Nat := if 0 < attempt then [attempt * 10] else []
    match upd attempt with
    | .ok _ => { sleepsSec := sleepsHere, attempts := 1, result := .ok () }
    | .error e =>
      let r := retryAttemptLoop taskName upd rest e
      { sleepsSec := sleepsHere ++ r.sleepsSec, attempts := r.attempts + 1, result := r.result }

/-- `updateTaskWithRetry`: attempts `0, 1, ..., taskUpdateRetryAttemptsLimit`.
The initial `lastError` stands for the `nil` Go error; it is overwritten before
it can ever be read. -/
def updateTaskWithRetry (taskName : String) (upd : Nat → Except String Unit) : RetryTrace :=
  retryAttemptLoop taskName upd (List.range (taskUpdateRetryAttemptsLimit + 1)) ""

/-- Result of one `executeAndUpdateTask` goroutine: the state after it
finished, its events, and whether the handler raised a runtime fault. -/
structure ExecResult where
  state : TaskRunnerState
  events : List Event
  panicked : Bool
  /-- whether an unrecovered fault escaped the goroutine (which would kill the
  process); the deferred recovery always absorbs the fault, so this is `false`
  on every path -/
  terminatedProcess : Bool
deriving Repr

/-- `executeAndUpdateTask`: run the handler through `executeTask`, hand the
TaskResult to `updateTaskWithRetry` (a delivery failure is only logged), and
release the running-worker slot via the deferred `runningWorkerDone`, which
runs on the fault path as well (Go runs deferred calls while panicking, LIFO:
the deferred panic recovery first, then `runningWorkerDone`).  On a fault no
TaskResult exists, so nothing reaches the reporter. -/
def executeAndUpdateTask (s : TaskRunnerState) (taskName : String) (t : Task)
    (f : ExecuteTaskFunction) (upd : Nat → Except String Unit) : ExecResult :=
  match executeTask t (callHandler f t) with
  | .error msg =>
    let recovered := HandlePanicError msg
    { state := runningWorkerDone s taskName
      events := [.released taskName]
      panicked := true
      terminatedProcess := !recovered }
  | .ok tr =>
    let _ := updateTaskWithRetry taskName upd
    { state := runningWorkerDone s taskName
      events := [.reported taskName tr, .released taskName]
      panicked := false
      terminatedProcess := false }

/-! ## Operation-level transition system

One atomic step is either a public API call on the runner or a scheduler event
of one of the concurrently running goroutines: an iteration of a `work4ever`
loop (which re-checks `isWorkerRegistered` before each `workOnce`), the exit of
such a loop once it observes unregistration, or the completion of a dispatched
`executeAndUpdateTask` goroutine.  A goroutine event whose enabling condition
does not hold (no such goroutine exists) is a stutter step. -/
inductive Op where
  | opStartWorker (taskName : String) (handler : ExecuteTaskFunction)
      (batchSize : Int) (pollIntervalMs : Int) (domain : String)
  | opRegisterWorker (w : Option WorkerSpec)
  | opSetBatchSize (taskName : String) (batchSize : Int)
  | opIncreaseBatchSize (taskName : String) (batchSize : Int)
  | opDecreaseBatchSize (taskName : String) (batchSize : Int)
  | opPause (taskName : String)
  | opResume (taskName : String)
  | opShutdown (taskName : String)
  | opLoopIter (taskName : String) (pollFn : Int → Except String (List Task))
  | opLoopExit (taskName : String)
  | opExecFinish (taskName : String) (t : Task) (f : ExecuteTaskFunction)
      (upd : Nat → Except String Unit)

/-- Effect of one atomic step on the runner state, with the events it emits. -/
def step (s : TaskRunnerState) : Op → TaskRunnerState × List Event
  | .opStartWorker taskName handler batchSize pollIntervalMs domain =>
    let r := startWorker s taskName handler batchSize pollIntervalMs domain
    (r.state, if r.spawned then [.loopStarted taskName] else [])
  | .opRegisterWorker w =>
    let r := RegisterWorker s w
    (r.state, if r.spawned then [.loopStarted (match w with | some w => w.taskName | none => "")] else [])
  | .opSetBatchSize taskName batchSize =>
    match SetBatchSize s taskName batchSize with
    | .ok s' => (s', [])
    | .error _ => (s, [])
  | .opIncreaseBatchSize taskName batchSize =>
    match IncreaseBatchSize s taskName batchSize with
    | .ok s' => (s', [])
    | .error _ => (s, [])
  | .opDecreaseBatchSize taskName batchSize =>
    match DecreaseBatchSize s taskName batchSize with
    | .ok s' => (s', [])
    | .error _ => (s, [])
  | .opPause taskName => (Pause s taskName, [])
  | .opResume taskName => (Resume s taskName, [])
  | .opShutdown taskName => (Shutdown s taskName, [])
  | .opLoopIter taskName pollFn =>
    if 1 ≤ activeLoopCount s taskName ∧ isWorkerRegistered s taskName then
      let r := workOnce s taskName pollFn
      (r.state, r.events)
    else
      (s, [])
  | .opLoopExit taskName =>
    if 1 ≤ activeLoopCount s taskName ∧ ¬ isWorkerRegistered s taskName then
      (exitLoop s taskName, [.loopExited taskName])
    else
      (s, [])
  | .opExecFinish taskName t f upd =>
    if 1 ≤ getRunningWorkers s taskName then
      let r := executeAndUpdateTask s taskName t f upd
      (r.state, r.events)
    else
      (s, [])

/-- Run a sequence of atomic steps, collecting all events in order. -/
def runOps (s : TaskRunnerState) : List Op → TaskRunnerState × List Event
  | [] => (s, [])
  | op :: rest =>
    ((runOps (step s op).1 rest).1, (step s op).2 ++ (runOps (step s op).1 rest).2)

/-- States reachable from a fresh runner by atomic steps. -/
inductive Reachable : TaskRunnerState → Prop where
  | init : Reachable NewTaskRunnerWithApiClient
  | next {s : TaskRunnerState} (h : Reachable s) (op : Op) : Reachable (step s op).1

/-- Whether an operation is a registration call for the given task name
(the only operations that can make `isWorkerRegistered` true or spawn a
poll loop for it). -/
def opRegistersName (op : Op) (taskName : String) : Bool :=
  match op with
  | .opStartWorker m _ _ _ _ => m = taskName
  | .opRegisterWorker (some w) => w.taskName = taskName
  | _ => false

def sampleTask : Task :=
  { taskId := "task-1", taskDefName := "t", workflowInstanceId := "wf-1" }

def c1State : TaskRunnerState :=
  { NewTaskRunnerWithApiClient with
      batchSizeByTaskName := [("t", 2)]
      pollIntervalByTaskName := [("t", 100)] }

def c1Poll : Int → Except String (List Task) := fun _ => .ok [sampleTask]

def c3UpdFail : Nat → Except String Unit := fun _ => .error "boom"

/-! ## C5: the running count is released exactly once per execution -/
/-- `true` on events recording a hand-over to the result reporter. -/
def isReportedEvent : Event → Bool
  | .reported _ _ => true
  | _ => false

def c5State : TaskRunnerState :=
  { NewTaskRunnerWithApiClient with
      batchSizeByTaskName := [("t", 2)]
      runningWorkersByTaskName := [("t", 1)] }

def c5Handler : ExecuteTaskFunction := some (fun _ => .success none)

def c5Upd : Nat → Except String Unit := fun _ => .ok ()

/-! ## C2: handler faults are intercepted but produce no TaskResult -/
def c2FaultHandler : ExecuteTaskFunction := some (fun _ => .fault "boom")

/-- The central loop invariant: every registered task name has at least one
`work4ever` poll loop running (a loop exits only after observing
unregistration, and registration spawns one when the prior capacity was
below 1). -/
def LoopInv (s : TaskRunnerState) : Prop :=
  ∀ n, isWorkerRegistered s n = true → 1 ≤ activeLoopCount s n

def c4Ops : List Op :=
  [Op.opStartWorker "t" c5Handler 1 100 "", Op.opSetBatchSize "t" 0]

def c4State : TaskRunnerState := (runOps NewTaskRunnerWithApiClient c4Ops).1

def c4After : TaskRunnerState :=
  { c4State with batchSizeByTaskName :=
                   mapInsert c4State.batchSizeByTaskName "t"
                     (getMaxAllowedWorkers c4State "t" + 2) }

/-! ## C10: re-registration is additive but can duplicate loops -/
def c10Ops : List Op :=
  [Op.opStartWorker "t" c5Handler 1 100 "", Op.opSetBatchSize "t" 0,
    Op.opStartWorker "t" c5Handler 1 100 ""]

def c8State : TaskRunnerState :=
  { NewTaskRunnerWithApiClient with
      runningWorkersByTaskName := [("t", 1)]
      activeLoops := [("t", 1)] }

def c8Ops : List Op :=
  [Op.opPause "t", Op.opResume "t", Op.opLoopIter "t" c1Poll, Op.opLoopExit "t"]

/-! ## C6: DecreaseBatchSize clamps at zero; availability with work in flight -/
def c6State : TaskRunnerState :=
  { NewTaskRunnerWithApiClient with
      batchSizeByTaskName := [("t", 3)]
      runningWorkersByTaskName := [("t", 2)] }

def c6After : TaskRunnerState :=
  { NewTaskRunnerWithApiClient with
      batchSizeByTaskName := [("t", 0)]
      runningWorkersByTaskName := [("t", 2)] }

def c6Poll : Int → Except String (List Task) := fun _ => .ok [sampleTask]

theorem mapLookup_insert_self {α : Type} (m : List (String × α)) (k : String) (v : α) :
    mapLookup (mapInsert m k v) k = some v := by
  induction m with
  | nil => simp [mapInsert, mapLookup]
  | cons hd tl ih =>
    obtain ⟨k', v'⟩ := hd
    by_cases h : k' = k
    · simp [mapInsert, h, mapLookup]
    · simp [mapInsert, h, mapLookup, ih]

theorem mapLookup_insert_ne {α : Type} (m : List (String × α)) (k k' : String) (v : α)
    (h : k ≠ k') : mapLookup (mapInsert m k v) k' = mapLookup m k' := by
  induction m with
  | nil => simp [mapInsert, mapLookup, h]
  | cons hd tl ih =>
    obtain ⟨k0, v0⟩ := hd
    by_cases h0 : k0 = k
    · simp [mapInsert, h0, mapLookup, h]
    · simp [mapInsert, h0, mapLookup, ih]

theorem mapLookup_erase_self {α : Type} (m : List (String × α)) (k : String) :
    mapLookup (mapErase m k) k = none := by
  induction m with
  | nil => simp [mapErase]
  | cons hd tl ih =>
    obtain ⟨k', v'⟩ := hd
    by_cases h : k' = k
    · simp [mapErase, h, ih]
    · simp [mapErase, h, mapLookup, ih]

theorem mapLookup_erase_ne {α : Type} (m : List (String × α)) (k k' : String)
    (h : k ≠ k') : mapLookup (mapErase m k) k' = mapLookup m k' := by
  induction m with
  | nil => simp [mapErase]
  | cons hd tl ih =>
    obtain ⟨k0, v0⟩ := hd
    by_cases h0 : k0 = k
    · have : k0 ≠ k' := by rw [h0]; exact h
      simp [mapErase, h0, mapLookup, this, ih, h]
    · simp [mapErase, h0, mapLookup, ih]

/-! ## Basic lemmas about the counters -/
theorem getRunningWorkers_increaseRunningWorkers (s : TaskRunnerState) (n : String) :
    getRunningWorkers (increaseRunningWorkers s n) n = getRunningWorkers s n + 1 := by
  simp [getRunningWorkers, increaseRunningWorkers, mapLookup_insert_self]

theorem increaseRunningWorkers_batchSize (s : TaskRunnerState) (n : String) :
    (increaseRunningWorkers s n).batchSizeByTaskName = s.batchSizeByTaskName := rfl

theorem getRunningWorkers_runningWorkerDone (s : TaskRunnerState) (n : String) :
    getRunningWorkers (runningWorkerDone s n) n = getRunningWorkers s n - 1 := by
  simp [getRunningWorkers, runningWorkerDone, mapLookup_insert_self]

theorem getRunningWorkers_runningWorkerDone_ne (s : TaskRunnerState) (n m : String)
    (h : n ≠ m) : getRunningWorkers (runningWorkerDone s n) m = getRunningWorkers s m := by
  simp [getRunningWorkers, runningWorkerDone, mapLookup_insert_ne _ _ _ _ h]

theorem dispatchAll_running (n : String) (ts : List Task) :
    ∀ s : TaskRunnerState,
      getRunningWorkers (dispatchAll s n ts).1 n = getRunningWorkers s n + ts.length := by
  induction ts with
  | nil => intro s; simp [dispatchAll]
  | cons t rest ih =>
    intro s
    simp only [dispatchAll, ih, getRunningWorkers_increaseRunningWorkers, List.length_cons]
    push_cast
    ring

theorem dispatchAll_events (n : String) (ts : List Task) :
    ∀ s : TaskRunnerState,
      (dispatchAll s n ts).2 = ts.map (fun t => Event.dispatched n t.taskId) := by
  induction ts with
  | nil => intro s; simp [dispatchAll]
  | cons t rest ih => intro s; simp [dispatchAll, ih]

theorem dispatchAll_batchSize (n : String) (ts : List Task) :
    ∀ s : TaskRunnerState,
      (dispatchAll s n ts).1.batchSizeByTaskName = s.batchSizeByTaskName := by
  induction ts with
  | nil => intro s; rfl
  | cons t rest ih => intro s; simp [dispatchAll, ih, increaseRunningWorkers]

theorem dispatchAll_activeLoops (n : String) (ts : List Task) :
    ∀ s : TaskRunnerState, (dispatchAll s n ts).1.activeLoops = s.activeLoops := by
  induction ts with
  | nil => intro s; rfl
  | cons t rest ih => intro s; simp [dispatchAll, ih, increaseRunningWorkers]

theorem workOnce_batchSize (s : TaskRunnerState) (n : String)
    (pollFn : Int → Except String (List Task)) :
    (workOnce s n pollFn).state.batchSizeByTaskName = s.batchSizeByTaskName := by
  by_cases hp : isPaused s n
  · simp [workOnce, hp]
  · by_cases hlt : getAvailableWorkerAmount s n < 1
    · simp [workOnce, hp, hlt]
    · cases hpoll : pollFn (getAvailableWorkerAmount s n) with
      | error e => simp [workOnce, hp, hlt, hpoll]
      | ok tasks =>
        by_cases hlen : tasks.length < 1
        · cases hint : GetPollIntervalForTask s n with
          | error e => simp [workOnce, hp, hlt, hpoll, hlen, hint]
          | ok d => simp [workOnce, hp, hlt, hpoll, hlen, hint]
        · simp [workOnce, hp, hlt, hpoll, hlen, dispatchAll_batchSize]

theorem workOnce_activeLoops (s : TaskRunnerState) (n : String)
    (pollFn : Int → Except String (List Task)) :
    (workOnce s n pollFn).state.activeLoops = s.activeLoops := by
  by_cases hp : isPaused s n
  · simp [workOnce, hp]
  · by_cases hlt : getAvailableWorkerAmount s n < 1
    · simp [workOnce, hp, hlt]
    · cases hpoll : pollFn (getAvailableWorkerAmount s n) with
      | error e => simp [workOnce, hp, hlt, hpoll]
      | ok tasks =>
        by_cases hlen : tasks.length < 1
        · cases hint : GetPollIntervalForTask s n with
          | error e => simp [workOnce, hp, hlt, hpoll, hlen, hint]
          | ok d => simp [workOnce, hp, hlt, hpoll, hlen, hint]
        · simp [workOnce, hp, hlt, hpoll, hlen, dispatchAll_activeLoops]

theorem executeAndUpdateTask_state (s : TaskRunnerState) (n : String) (t : Task)
    (f : ExecuteTaskFunction) (upd : Nat → Except String Unit) :
    (executeAndUpdateTask s n t f upd).state = runningWorkerDone s n := by
  unfold executeAndUpdateTask
  split <;> rfl

/-! ## C1: the poll loop never over-commits capacity -/
/-- **C1.** At the instant `workOnce` decides to issue a batch fetch, the
requested batch size equals `getAvailableWorkerAmount = capacity - running`,
is at least 1 (so `running ≤ capacity` holds right before every fetch), and
the running-worker count grows by exactly one per task actually returned by
the poll before the tasks are dispatched. -/
theorem workOnce_poll_respects_capacity (s : TaskRunnerState) (taskName : String)
    (pollFn : Int → Except String (List Task)) :
    ∀ b, (workOnce s taskName pollFn).polled = some b →
      b = getAvailableWorkerAmount s taskName ∧ 1 ≤ b ∧
      getRunningWorkers s taskName ≤ getMaxAllowedWorkers s taskName ∧
      ∀ ts, pollFn b = .ok ts →
        getRunningWorkers (workOnce s taskName pollFn).state taskName =
          getRunningWorkers s taskName + ts.length ∧
        ((workOnce s taskName pollFn).events =
          .polled taskName b :: ts.map (fun t => Event.dispatched taskName t.taskId) ∨
          ts.length = 0) := by
  intro b hb
  by_cases hp : isPaused s taskName
  · simp [workOnce, hp] at hb
  · by_cases hlt : getAvailableWorkerAmount s taskName < 1
    · simp [workOnce, hp, hlt] at hb
    · have hb' : b = getAvailableWorkerAmount s taskName := by
        cases hpoll : pollFn (getAvailableWorkerAmount s taskName) with
        | error e => simp [workOnce, hp, hlt, hpoll] at hb; omega
        | ok tasks =>
          by_cases hlen : tasks.length < 1
          · cases hint : GetPollIntervalForTask s taskName with
            | error e => simp [workOnce, hp, hlt, hpoll, hlen, hint] at hb; omega
            | ok d => simp [workOnce, hp, hlt, hpoll, hlen, hint] at hb; omega
          · simp [workOnce, hp, hlt, hpoll, hlen] at hb; omega
      subst hb'
      refine ⟨rfl, by omega, ?_, ?_⟩
      · have : getAvailableWorkerAmount s taskName =
            getMaxAllowedWorkers s taskName - getRunningWorkers s taskName := rfl
        omega
      · intro ts hts
        cases hpoll : pollFn (getAvailableWorkerAmount s taskName) with
        | error e => rw [hpoll] at hts; exact absurd hts (by simp)
        | ok tasks =>
          rw [hpoll] at hts
          have htasks : tasks = ts := by injection hts
          subst htasks
          by_cases hlen : tasks.length < 1
          · have h0 : tasks.length = 0 := by omega
            cases hint : GetPollIntervalForTask s taskName with
            | error e =>
              refine ⟨?_, Or.inr h0⟩
              simp [workOnce, hp, hlt, hpoll, hlen, hint, h0]
            | ok d =>
              refine ⟨?_, Or.inr h0⟩
              simp [workOnce, hp, hlt, hpoll, hlen, hint, h0]
          · refine ⟨?_, Or.inl ?_⟩
            · simp [workOnce, hp, hlt, hpoll, hlen, dispatchAll_running]
            · simp [workOnce, hp, hlt, hpoll, hlen, dispatchAll_events]

/-- Witness for C1 at a concrete runner state with capacity 2, nothing
running, and a poll returning one task. -/
theorem workOnce_poll_respects_capacity_witness :
    (1 : Int) ≤ 2 ∧
      getRunningWorkers (workOnce c1State "t" c1Poll).state "t" =
        getRunningWorkers c1State "t" + ([sampleTask].length : Int) := by
  have h := workOnce_poll_respects_capacity c1State "t" c1Poll 2 (by decide)
  obtain ⟨-, h1, -, hts⟩ := h
  exact ⟨h1, (hts [sampleTask] rfl).1⟩

/-! ## C3: bounded result-delivery retry with linear backoff -/
/-- **C3.** `updateTaskWithRetry` issues at most 4 delivery attempts (initial
plus `taskUpdateRetryAttemptsLimit = 3` retries), sleeping `10 * k` seconds
before retry `k`; the first successful attempt ends the call with no further
attempts; when all 4 attempts fail it returns exactly one error carrying the
last delivery error, having slept 10s, 20s, 30s. -/
theorem updateTaskWithRetry_spec (taskName : String) (upd : Nat → Except String Unit) :
    (updateTaskWithRetry taskName upd).attempts ≤ taskUpdateRetryAttemptsLimit + 1 ∧
    (updateTaskWithRetry taskName upd).sleepsSec =
      (List.range ((updateTaskWithRetry taskName upd).attempts - 1)).map
        (fun i => (i + 1) * 10) ∧
    (∀ k, k ≤ taskUpdateRetryAttemptsLimit → upd k = .ok () →
      (∀ j, j < k → upd j ≠ .ok ()) →
      (updateTaskWithRetry taskName upd).attempts = k + 1 ∧
      (updateTaskWithRetry taskName upd).result = .ok ()) ∧
    (∀ e, (∀ j, j ≤ taskUpdateRetryAttemptsLimit → upd j ≠ .ok ()) →
      upd taskUpdateRetryAttemptsLimit = .error e →
      (updateTaskWithRetry taskName upd).attempts = taskUpdateRetryAttemptsLimit + 1 ∧
      (updateTaskWithRetry taskName upd).result =
        .error (updateFailureMessage taskName e) ∧
      (updateTaskWithRetry taskName upd).sleepsSec = [10, 20, 30]) := by
  simp only [taskUpdateRetryAttemptsLimit]
  have hr : List.range (taskUpdateRetryAttemptsLimit + 1) = [0, 1, 2, 3] := by decide
  rcases h0 : upd 0 with e0 | ⟨⟩
  case ok =>
    have htr : updateTaskWithRetry taskName upd =
        { sleepsSec := [], attempts := 1, result := .ok () } := by
      simp [updateTaskWithRetry, hr, retryAttemptLoop, h0]
    refine ⟨?_, ?_, ?_, ?_⟩
    · rw [htr]; decide
    · rw [htr]; decide
    · intro k hk hok hprev
      rw [htr]
      interval_cases k
      · exact ⟨rfl, rfl⟩
      · exact absurd h0 (hprev 0 (by omega))
      · exact absurd h0 (hprev 0 (by omega))
      · exact absurd h0 (hprev 0 (by omega))
    · intro e hall _
      exact absurd h0 (hall 0 (by omega))
  case error =>
  rcases h1 : upd 1 with e1 | ⟨⟩
  case ok =>
    have htr : updateTaskWithRetry taskName upd =
        { sleepsSec := [10], attempts := 2, result := .ok () } := by
      simp [updateTaskWithRetry, hr, retryAttemptLoop, h0, h1]
    refine ⟨?_, ?_, ?_, ?_⟩
    · rw [htr]; decide
    · rw [htr]; decide
    · intro k hk hok hprev
      rw [htr]
      interval_cases k
      · rw [h0] at hok; exact absurd hok (by simp)
      · exact ⟨rfl, rfl⟩
      · exact absurd h1 (hprev 1 (by omega))
      · exact absurd h1 (hprev 1 (by omega))
    · intro e hall _
      exact absurd h1 (hall 1 (by omega))
  case error =>
  rcases h2 : upd 2 with e2 | ⟨⟩
  case ok =>
    have htr : updateTaskWithRetry taskName upd =
        { sleepsSec := [10, 20], attempts := 3, result := .ok () } := by
      simp [updateTaskWithRetry, hr, retryAttemptLoop, h0, h1, h2]
    refine ⟨?_, ?_, ?_, ?_⟩
    · rw [htr]; decide
    · rw [htr]; decide
    · intro k hk hok hprev
      rw [htr]
      interval_cases k
      · rw [h0] at hok; exact absurd hok (by simp)
      · rw [h1] at hok; exact absurd hok (by simp)
      · exact ⟨rfl, rfl⟩
      · exact absurd h2 (hprev 2 (by omega))
    · intro e hall _
      exact absurd h2 (hall 2 (by omega))
  case error =>
  rcases h3 : upd 3 with e3 | ⟨⟩
  case ok =>
    have htr : updateTaskWithRetry taskName upd =
        { sleepsSec := [10, 20, 30], attempts := 4, result := .ok () } := by
      simp [updateTaskWithRetry, hr, retryAttemptLoop, h0, h1, h2, h3]
    refine ⟨?_, ?_, ?_, ?_⟩
    · rw [htr]
    · rw [htr]; decide
    · intro k hk hok hprev
      rw [htr]
      interval_cases k
      · rw [h0] at hok; exact absurd hok (by simp)
      · rw [h1] at hok; exact absurd hok (by simp)
      · rw [h2] at hok; exact absurd hok (by simp)
      · exact ⟨rfl, rfl⟩
    · intro e hall _
      exact absurd h3 (hall 3 (by omega))
  case error =>
    have htr : updateTaskWithRetry taskName upd =
        { sleepsSec := [10, 20, 30], attempts := 4,
          result := .error (updateFailureMessage taskName e3) } := by
      simp [updateTaskWithRetry, hr, retryAttemptLoop, h0, h1, h2, h3]
    refine ⟨?_, ?_, ?_, ?_⟩
    · rw [htr]
    · rw [htr]
      show ([10, 20, 30] : List Nat) = (List.range (4 - 1)).map (fun i => (i + 1) * 10)
      decide
    · intro k hk hok hprev
      interval_cases k
      · rw [h0] at hok; exact absurd hok (by simp)
      · rw [h1] at hok; exact absurd hok (by simp)
      · rw [h2] at hok; exact absurd hok (by simp)
      · rw [h3] at hok; exact absurd hok (by simp)
    · intro e hall he
      have he' : e3 = e := Except.error.inj he
      subst he'
      rw [htr]
      exact ⟨rfl, rfl, rfl⟩

/-- Witness for C3 with a delivery oracle that fails on every attempt. -/
theorem updateTaskWithRetry_spec_witness :
    (updateTaskWithRetry "t" c3UpdFail).attempts = 4 ∧
    (updateTaskWithRetry "t" c3UpdFail).sleepsSec = [10, 20, 30] ∧
    (updateTaskWithRetry "t" c3UpdFail).result =
      .error (updateFailureMessage "t" "boom") := by
  obtain ⟨-, -, -, h4⟩ := updateTaskWithRetry_spec "t" c3UpdFail
  have h := h4 "boom" (fun j _ => by simp [c3UpdFail]) rfl
  exact ⟨h.1, h.2.2, h.2.1⟩

/-! ## C5: the running count is released exactly once per execution -/

/-- **C5.** Every `executeAndUpdateTask` run decrements the running count of
its task type by exactly one — one `released` event, final count = initial
count - 1 — on every exit path (the handler outcome `f` and delivery oracle
`upd` range over success, error, fault and delivery-failure behaviours), and
leaves the running counts of other task types untouched. -/
theorem executeAndUpdateTask_releases_once (s : TaskRunnerState) (n : String)
    (t : Task) (f : ExecuteTaskFunction) (upd : Nat → Except String Unit) :
    getRunningWorkers (executeAndUpdateTask s n t f upd).state n =
      getRunningWorkers s n - 1 ∧
    (executeAndUpdateTask s n t f upd).events.count (Event.released n) = 1 ∧
    ∀ m, m ≠ n →
      getRunningWorkers (executeAndUpdateTask s n t f upd).state m =
        getRunningWorkers s m := by
  refine ⟨?_, ?_, ?_⟩
  · rw [executeAndUpdateTask_state]
    exact getRunningWorkers_runningWorkerDone s n
  · unfold executeAndUpdateTask
    split <;> simp [List.count_cons]
  · intro m hm
    rw [executeAndUpdateTask_state]
    exact getRunningWorkers_runningWorkerDone_ne s n m (fun h => hm h.symm)

/-- Witness for C5 on a concrete execution with one other task type. -/
theorem executeAndUpdateTask_releases_once_witness :
    getRunningWorkers (executeAndUpdateTask c5State "t" sampleTask c5Handler c5Upd).state "t" =
      getRunningWorkers c5State "t" - 1 ∧
    getRunningWorkers (executeAndUpdateTask c5State "t" sampleTask c5Handler c5Upd).state "u" =
      getRunningWorkers c5State "u" := by
  have h := executeAndUpdateTask_releases_once c5State "t" sampleTask c5Handler c5Upd
  exact ⟨h.1, h.2.2 "u" (by decide)⟩

/-! ## C2: handler faults are intercepted but produce no TaskResult -/

/-- **C2, counterexample.** A handler that panics does *not* yield a FAILED
TaskResult forwarded to the result reporter: on the fault path of
`executeAndUpdateTask` nothing reaches `updateTaskWithRetry` — the only event
is the capacity release — even though the fault is recovered and the process
survives.  This refutes the claim that the execution wrapper converts panics
into FAILED TaskResults that are forwarded. -/
theorem executeAndUpdateTask_fault_reports_nothing :
    (executeAndUpdateTask c5State "t" sampleTask c2FaultHandler c5Upd).events.any
        isReportedEvent = false ∧
    (executeAndUpdateTask c5State "t" sampleTask c2FaultHandler c5Upd).events =
      [Event.released "t"] ∧
    (executeAndUpdateTask c5State "t" sampleTask c2FaultHandler c5Upd).panicked = true := by
  refine ⟨rfl, rfl, rfl⟩

/-- **C2, amended.** A handler panic is intercepted: the execution goroutine
ends quietly (the fault never escapes to kill the loop or the process) and the
running count is still released, but no TaskResult is produced or forwarded to
the result reporter for that task.  A FAILED TaskResult carrying the (then
non-empty) error message is produced and forwarded only for a handler that
*returns* an error (with no output value). -/
theorem executeAndUpdateTask_fault_and_error_spec (s : TaskRunnerState) (n : String)
    (t : Task) (upd : Nat → Except String Unit) :
    (∀ f msg, callHandler f t = .fault msg →
      (executeAndUpdateTask s n t f upd).panicked = true ∧
      (executeAndUpdateTask s n t f upd).terminatedProcess = false ∧
      (executeAndUpdateTask s n t f upd).events = [Event.released n]) ∧
    (∀ f err, err ≠ "" → callHandler f t = .failure err none →
      (executeAndUpdateTask s n t f upd).events =
        [Event.reported n (NewTaskResultFromTaskWithError t err), Event.released n] ∧
      (NewTaskResultFromTaskWithError t err).status = .failed ∧
      (NewTaskResultFromTaskWithError t err).reasonForIncompletion = err) := by
  constructor
  · intro f msg hf
    simp [executeAndUpdateTask, executeTask, hf, HandlePanicError]
  · intro f err herr hf
    refine ⟨?_, rfl, rfl⟩
    simp [executeAndUpdateTask, executeTask, hf]

/-- Witness for the amended C2 on concrete fault and error handlers. -/
theorem executeAndUpdateTask_fault_and_error_spec_witness :
    (executeAndUpdateTask c5State "t" sampleTask c2FaultHandler c5Upd).terminatedProcess
        = false ∧
    (executeAndUpdateTask c5State "t" sampleTask
        (some (fun _ => .failure "it broke" none)) c5Upd).events =
      [Event.reported "t" (NewTaskResultFromTaskWithError sampleTask "it broke"),
        Event.released "t"] := by
  have h := executeAndUpdateTask_fault_and_error_spec c5State "t" sampleTask c5Upd
  refine ⟨(h.1 c2FaultHandler "boom" rfl).2.1, ?_⟩
  exact (h.2 (some (fun _ => .failure "it broke" none)) "it broke" (by decide) rfl).1

/-! ## Shape lemmas for the lifecycle operations -/
theorem spawnLoop_count_self (s : TaskRunnerState) (n : String) :
    activeLoopCount (spawnLoop s n) n = activeLoopCount s n + 1 := by
  simp [spawnLoop, activeLoopCount, mapLookup_insert_self]

theorem spawnLoop_count_ne (s : TaskRunnerState) (n m : String) (h : n ≠ m) :
    activeLoopCount (spawnLoop s n) m = activeLoopCount s m := by
  simp [spawnLoop, activeLoopCount, mapLookup_insert_ne _ _ _ _ h]

theorem exitLoop_count_self (s : TaskRunnerState) (n : String) :
    activeLoopCount (exitLoop s n) n = activeLoopCount s n - 1 := by
  simp [exitLoop, activeLoopCount, mapLookup_insert_self]

theorem exitLoop_count_ne (s : TaskRunnerState) (n m : String) (h : n ≠ m) :
    activeLoopCount (exitLoop s n) m = activeLoopCount s m := by
  simp [exitLoop, activeLoopCount, mapLookup_insert_ne _ _ _ _ h]

theorem startWorker_registered_self (s : TaskRunnerState) (n : String)
    (f : ExecuteTaskFunction) (b i : Int) (d : String) :
    isWorkerRegistered (startWorker s n f b i d).state n = true := by
  simp only [startWorker]
  split <;>
    simp [spawnLoop, increaseMaxAllowedWorkers, isWorkerRegistered, mapLookup_insert_self]

theorem startWorker_registered_ne (s : TaskRunnerState) (n m : String)
    (f : ExecuteTaskFunction) (b i : Int) (d : String) (h : n ≠ m) :
    isWorkerRegistered (startWorker s n f b i d).state m = isWorkerRegistered s m := by
  simp only [startWorker]
  split <;>
    simp [spawnLoop, increaseMaxAllowedWorkers, isWorkerRegistered, Resume,
      SetPollIntervalForTask, mapLookup_insert_ne _ _ _ _ h]

theorem startWorker_batch_self (s : TaskRunnerState) (n : String)
    (f : ExecuteTaskFunction) (b i : Int) (d : String) :
    getMaxAllowedWorkers (startWorker s n f b i d).state n =
      getMaxAllowedWorkers s n + b := by
  simp only [startWorker]
  split <;>
    simp [spawnLoop, increaseMaxAllowedWorkers, getMaxAllowedWorkers, Resume,
      SetPollIntervalForTask, mapLookup_insert_self]

theorem startWorker_loops_self (s : TaskRunnerState) (n : String)
    (f : ExecuteTaskFunction) (b i : Int) (d : String) :
    activeLoopCount (startWorker s n f b i d).state n =
      activeLoopCount s n + (if getMaxAllowedWorkers s n < 1 then 1 else 0) := by
  simp only [startWorker]
  have hprev : getMaxAllowedWorkers (Resume (SetPollIntervalForTask s n i) n) n =
      getMaxAllowedWorkers s n := rfl
  rw [hprev]
  by_cases h : getMaxAllowedWorkers s n < 1
  · rw [if_pos h, if_pos h]
    rw [spawnLoop_count_self]
    rfl
  · rw [if_neg h, if_neg h]
    rfl

theorem startWorker_loops_ne (s : TaskRunnerState) (n m : String)
    (f : ExecuteTaskFunction) (b i : Int) (d : String) (h : n ≠ m) :
    activeLoopCount (startWorker s n f b i d).state m = activeLoopCount s m := by
  simp only [startWorker]
  split <;>
    simp [spawnLoop, increaseMaxAllowedWorkers, activeLoopCount, Resume,
      SetPollIntervalForTask, mapLookup_insert_ne _ _ _ _ h]

theorem startWorker_paused_self (s : TaskRunnerState) (n : String)
    (f : ExecuteTaskFunction) (b i : Int) (d : String) :
    isPaused (startWorker s n f b i d).state n = false := by
  simp only [startWorker]
  split <;>
    simp [spawnLoop, increaseMaxAllowedWorkers, isPaused, Resume,
      SetPollIntervalForTask, mapLookup_insert_self]

theorem startWorker_spawned_iff (s : TaskRunnerState) (n : String)
    (f : ExecuteTaskFunction) (b i : Int) (d : String) :
    (startWorker s n f b i d).spawned = true ↔ getMaxAllowedWorkers s n < 1 := by
  simp only [startWorker]
  have hprev : getMaxAllowedWorkers (Resume (SetPollIntervalForTask s n i) n) n =
      getMaxAllowedWorkers s n := rfl
  rw [hprev]
  by_cases h : getMaxAllowedWorkers s n < 1
  · rw [if_pos h]; simpa using h
  · rw [if_neg h]; simpa using h

theorem SetBatchSize_ok (s : TaskRunnerState) (m : String) (b : Int)
    (s' : TaskRunnerState) (h : SetBatchSize s m b = .ok s') :
    0 ≤ b ∧ isWorkerRegistered s m = true ∧
    s' = { s with batchSizeByTaskName := mapInsert s.batchSizeByTaskName m b } := by
  unfold SetBatchSize at h
  by_cases h1 : b < 0
  · rw [if_pos h1] at h; exact absurd h (by simp)
  · rw [if_neg h1] at h
    by_cases h2 : isWorkerRegistered s m
    · simp only [h2, Bool.not_true, Bool.false_eq_true, if_false] at h
      injection h with h
      exact ⟨by omega, h2, h.symm⟩
    · simp only [Bool.not_eq_true] at h2
      rw [h2] at h
      exact absurd h (by simp)

theorem IncreaseBatchSize_ok (s : TaskRunnerState) (m : String) (b : Int)
    (s' : TaskRunnerState) (h : IncreaseBatchSize s m b = .ok s') :
    1 ≤ b ∧ isWorkerRegistered s m = true ∧
    s' = { s with batchSizeByTaskName :=
                    mapInsert s.batchSizeByTaskName m (getMaxAllowedWorkers s m + b) } := by
  unfold IncreaseBatchSize at h
  by_cases h1 : b < 1
  · rw [if_pos h1] at h; exact absurd h (by simp)
  · rw [if_neg h1] at h
    by_cases h2 : isWorkerRegistered s m
    · simp only [h2, Bool.not_true, Bool.false_eq_true, if_false] at h
      injection h with h
      exact ⟨by omega, h2, h.symm⟩
    · simp only [Bool.not_eq_true] at h2
      rw [h2] at h
      exact absurd h (by simp)

theorem DecreaseBatchSize_ok (s : TaskRunnerState) (m : String) (b : Int)
    (s' : TaskRunnerState) (h : DecreaseBatchSize s m b = .ok s') :
    1 ≤ b ∧ isWorkerRegistered s m = true ∧
    getMaxAllowedWorkers s' m = max (getMaxAllowedWorkers s m - b) 0 ∧
    isWorkerRegistered s' m = true ∧
    (∀ k, k ≠ m → mapLookup s'.batchSizeByTaskName k = mapLookup s.batchSizeByTaskName k) ∧
    s'.runningWorkersByTaskName = s.runningWorkersByTaskName ∧
    s'.activeLoops = s.activeLoops ∧
    s'.pausedWorkers = s.pausedWorkers := by
  unfold DecreaseBatchSize at h
  by_cases h1 : b < 1
  · rw [if_pos h1] at h; exact absurd h (by simp)
  · rw [if_neg h1] at h
    by_cases h2 : isWorkerRegistered s m
    · simp only [h2, Bool.not_true, Bool.false_eq_true, if_false] at h
      by_cases h3 : getMaxAllowedWorkers s m - b ≤ 0
      · rw [if_pos h3] at h
        injection h with h
        subst h
        refine ⟨by omega, h2, ?_, ?_, ?_, rfl, rfl, rfl⟩
        · unfold getMaxAllowedWorkers at h3
          simp [getMaxAllowedWorkers, mapLookup_insert_self]
          omega
        · simp [isWorkerRegistered, mapLookup_insert_self]
        · intro k hk
          rw [mapLookup_insert_ne _ _ _ _ (fun hh => hk hh.symm),
            mapLookup_insert_ne _ _ _ _ (fun hh => hk hh.symm)]
      · rw [if_neg h3] at h
        injection h with h
        subst h
        refine ⟨by omega, h2, ?_, ?_, ?_, rfl, rfl, rfl⟩
        · unfold getMaxAllowedWorkers at h3
          simp [getMaxAllowedWorkers, mapLookup_insert_self]
          omega
        · simp [isWorkerRegistered, mapLookup_insert_self]
        · intro k hk
          rw [mapLookup_insert_ne _ _ _ _ (fun hh => hk hh.symm)]
    · simp only [Bool.not_eq_true] at h2
      rw [h2] at h
      exact absurd h (by simp)

theorem isWorkerRegistered_congr {s s' : TaskRunnerState}
    (h : s'.batchSizeByTaskName = s.batchSizeByTaskName) (n : String) :
    isWorkerRegistered s' n = isWorkerRegistered s n := by
  unfold isWorkerRegistered
  rw [h]

theorem activeLoopCount_congr {s s' : TaskRunnerState}
    (h : s'.activeLoops = s.activeLoops) (n : String) :
    activeLoopCount s' n = activeLoopCount s n := by
  unfold activeLoopCount
  rw [h]

theorem getMaxAllowedWorkers_congr {s s' : TaskRunnerState}
    (h : s'.batchSizeByTaskName = s.batchSizeByTaskName) (n : String) :
    getMaxAllowedWorkers s' n = getMaxAllowedWorkers s n := by
  unfold getMaxAllowedWorkers
  rw [h]

theorem loopInv_startWorker (s₀ s : TaskRunnerState)
    (hbatch : s.batchSizeByTaskName = s₀.batchSizeByTaskName)
    (hloops : s.activeLoops = s₀.activeLoops) (h : LoopInv s₀)
    (m : String) (f : ExecuteTaskFunction) (b i : Int) (d : String) :
    LoopInv (startWorker s m f b i d).state := by
  intro n hn
  by_cases hnm : m = n
  · subst hnm
    rw [startWorker_loops_self]
    by_cases hprev : getMaxAllowedWorkers s m < 1
    · rw [if_pos hprev]; omega
    · rw [if_neg hprev]
      have hreg : isWorkerRegistered s₀ m = true := by
        rw [← isWorkerRegistered_congr hbatch]
        unfold getMaxAllowedWorkers at hprev
        unfold isWorkerRegistered
        cases hlk : mapLookup s.batchSizeByTaskName m with
        | none => rw [hlk] at hprev; simp at hprev
        | some v => simp [hlk]
      have h1 := h m hreg
      rw [← activeLoopCount_congr hloops] at h1
      omega
  · rw [startWorker_loops_ne s m n f b i d hnm]
    rw [startWorker_registered_ne s m n f b i d hnm] at hn
    rw [isWorkerRegistered_congr hbatch] at hn
    rw [activeLoopCount_congr hloops]
    exact h n hn

theorem loopInv_step (s : TaskRunnerState) (h : LoopInv s) (op : Op) :
    LoopInv (step s op).1 := by
  cases op with
  | opStartWorker m f b i d =>
    simp only [step]
    exact loopInv_startWorker s s rfl rfl h m f b i d
  | opRegisterWorker w =>
    cases w with
    | none => simp only [step, RegisterWorker]; exact h
    | some w =>
      simp only [step, RegisterWorker]
      by_cases hw : w.pollTimeoutMs ≠ 0
      · rw [if_pos hw]
        exact loopInv_startWorker s
          (SetPollTimeoutForTask (SetPollIntervalForTask s w.taskName w.pollIntervalMs)
            w.taskName w.pollTimeoutMs) rfl rfl h _ _ _ _ _
      · rw [if_neg hw]
        exact loopInv_startWorker s
          (SetPollIntervalForTask s w.taskName w.pollIntervalMs) rfl rfl h _ _ _ _ _
  | opSetBatchSize m b =>
    intro n hn
    simp only [step] at hn ⊢
    cases hsb : SetBatchSize s m b with
    | error e => rw [hsb] at hn; exact h n hn
    | ok s' =>
      rw [hsb] at hn
      have hn2 : isWorkerRegistered s' n = true := hn
      show 1 ≤ activeLoopCount s' n
      obtain ⟨-, hregm, rfl⟩ := SetBatchSize_ok s m b s' hsb
      by_cases hnm : m = n
      · subst hnm; exact h m hregm
      · have hn' : isWorkerRegistered s n = true := by
          unfold isWorkerRegistered at hn2
          rw [mapLookup_insert_ne _ _ _ _ hnm] at hn2
          exact hn2
        exact h n hn'
  | opIncreaseBatchSize m b =>
    intro n hn
    simp only [step] at hn ⊢
    cases hsb : IncreaseBatchSize s m b with
    | error e => rw [hsb] at hn; exact h n hn
    | ok s' =>
      rw [hsb] at hn
      have hn2 : isWorkerRegistered s' n = true := hn
      show 1 ≤ activeLoopCount s' n
      obtain ⟨-, hregm, rfl⟩ := IncreaseBatchSize_ok s m b s' hsb
      by_cases hnm : m = n
      · subst hnm; exact h m hregm
      · have hn' : isWorkerRegistered s n = true := by
          unfold isWorkerRegistered at hn2
          rw [mapLookup_insert_ne _ _ _ _ hnm] at hn2
          exact hn2
        exact h n hn'
  | opDecreaseBatchSize m b =>
    intro n hn
    simp only [step] at hn ⊢
    cases hsb : DecreaseBatchSize s m b with
    | error e => rw [hsb] at hn; exact h n hn
    | ok s' =>
      rw [hsb] at hn
      have hn2 : isWorkerRegistered s' n = true := hn
      show 1 ≤ activeLoopCount s' n
      obtain ⟨-, hregm, -, hregm', hlkne, -, hloops, -⟩ := DecreaseBatchSize_ok s m b s' hsb
      rw [activeLoopCount_congr hloops]
      by_cases hnm : m = n
      · subst hnm; exact h m hregm
      · have hn' : isWorkerRegistered s n = true := by
          unfold isWorkerRegistered at hn2
          rw [hlkne n (fun hh => hnm hh.symm)] at hn2
          exact hn2
        exact h n hn'
  | opPause m =>
    intro n hn
    exact h n hn
  | opResume m =>
    intro n hn
    exact h n hn
  | opShutdown m =>
    intro n hn
    simp only [step] at hn ⊢
    by_cases hnm : m = n
    · subst hnm
      unfold isWorkerRegistered Shutdown at hn
      simp [mapLookup_erase_self] at hn
    · have hn' : isWorkerRegistered s n = true := by
        unfold isWorkerRegistered Shutdown at hn
        rw [mapLookup_erase_ne _ _ _ hnm] at hn
        exact hn
      exact h n hn'
  | opLoopIter m pollFn =>
    intro n hn
    simp only [step] at hn ⊢
    by_cases hg : 1 ≤ activeLoopCount s m ∧ isWorkerRegistered s m = true
    · rw [if_pos hg] at hn ⊢
      rw [isWorkerRegistered_congr (workOnce_batchSize s m pollFn)] at hn
      rw [activeLoopCount_congr (workOnce_activeLoops s m pollFn)]
      exact h n hn
    · rw [if_neg hg] at hn ⊢
      exact h n hn
  | opLoopExit m =>
    intro n hn
    simp only [step] at hn ⊢
    by_cases hg : 1 ≤ activeLoopCount s m ∧ ¬ isWorkerRegistered s m = true
    · rw [if_pos hg] at hn ⊢
      by_cases hnm : m = n
      · subst hnm
        exact absurd hn hg.2
      · rw [exitLoop_count_ne s m n hnm]
        exact h n hn
    · rw [if_neg hg] at hn ⊢
      exact h n hn
  | opExecFinish m t f upd =>
    intro n hn
    simp only [step] at hn ⊢
    by_cases hg : 1 ≤ getRunningWorkers s m
    · rw [if_pos hg] at hn ⊢
      rw [executeAndUpdateTask_state] at hn ⊢
      exact h n hn
    · rw [if_neg hg] at hn ⊢
      exact h n hn

/-- Every reachable runner state satisfies the loop invariant. -/
theorem reachable_loopInv (s : TaskRunnerState) (h : Reachable s) : LoopInv s := by
  induction h with
  | init =>
    intro n hn
    simp [NewTaskRunnerWithApiClient, isWorkerRegistered] at hn
  | next hs op ih => exact loopInv_step _ ih op

theorem reachable_runOps : ∀ (ops : List Op) (s : TaskRunnerState),
    Reachable s → Reachable (runOps s ops).1
  | [], _, h => h
  | op :: rest, s, h => reachable_runOps rest (step s op).1 (Reachable.next h op)

/-! ## C4: capacity mutations never leave a registered type without a loop -/
/-- **C4.** In every reachable state, a successful capacity mutation
(`SetBatchSize`, `IncreaseBatchSize`, `DecreaseBatchSize`) finds a poll loop
already running for its task name and leaves the loop count unchanged.  Hence
after a zero-to-positive capacity transition a poll loop for the type is
running (the obligation to start one when none is running is met with nothing
to start), and a transition to zero stops no loop: the count is unchanged and
the name stays registered, so the loop keeps iterating and is merely starved. -/
theorem capacityMutation_keeps_loop (s : TaskRunnerState) (hs : Reachable s)
    (n : String) (b : Int) :
    (∀ s', SetBatchSize s n b = .ok s' →
      activeLoopCount s' n = activeLoopCount s n ∧ 1 ≤ activeLoopCount s' n ∧
      isWorkerRegistered s' n = true) ∧
    (∀ s', IncreaseBatchSize s n b = .ok s' →
      activeLoopCount s' n = activeLoopCount s n ∧ 1 ≤ activeLoopCount s' n ∧
      isWorkerRegistered s' n = true) ∧
    (∀ s', DecreaseBatchSize s n b = .ok s' →
      activeLoopCount s' n = activeLoopCount s n ∧ 1 ≤ activeLoopCount s' n ∧
      isWorkerRegistered s' n = true) := by
  have hinv := reachable_loopInv s hs
  refine ⟨?_, ?_, ?_⟩
  · intro s' h
    obtain ⟨-, hreg, rfl⟩ := SetBatchSize_ok s n b s' h
    exact ⟨rfl, hinv n hreg, by simp [isWorkerRegistered, mapLookup_insert_self]⟩
  · intro s' h
    obtain ⟨-, hreg, rfl⟩ := IncreaseBatchSize_ok s n b s' h
    exact ⟨rfl, hinv n hreg, by simp [isWorkerRegistered, mapLookup_insert_self]⟩
  · intro s' h
    obtain ⟨-, hreg, -, hreg', -, -, hloops, -⟩ := DecreaseBatchSize_ok s n b s' h
    have hc := activeLoopCount_congr hloops n
    exact ⟨hc, by rw [hc]; exact hinv n hreg, hreg'⟩

/-- Witness for C4: after registering "t" and dropping its capacity to 0, an
`IncreaseBatchSize` back to positive finds the (never stopped) poll loop still
running. -/
theorem capacityMutation_keeps_loop_witness :
    getMaxAllowedWorkers c4State "t" = 0 ∧
    activeLoopCount c4After "t" = activeLoopCount c4State "t" ∧
    1 ≤ activeLoopCount c4After "t" ∧
    getMaxAllowedWorkers c4After "t" = 2 := by
  have hreach : Reachable c4State :=
    reachable_runOps c4Ops NewTaskRunnerWithApiClient Reachable.init
  have h := (capacityMutation_keeps_loop c4State hreach "t" 2).2.1 c4After (by rfl)
  exact ⟨rfl, h.1, h.2.1, rfl⟩

/-! ## C10: re-registration is additive but can duplicate loops -/

/-- **C10, counterexample.** "At most one poll loop runs per name" fails:
register "t" (one loop), set its capacity to 0 (the loop stays: it exits only
on unregistration), then register "t" again — the prior capacity is 0, so
`startWorker` spawns a second loop while the first is still running, and both
keep running since the name is registered. -/
theorem startWorker_two_loops_counterexample :
    activeLoopCount (runOps NewTaskRunnerWithApiClient c10Ops).1 "t" = 2 ∧
    isWorkerRegistered (runOps NewTaskRunnerWithApiClient c10Ops).1 "t" = true :=
  ⟨rfl, rfl⟩

/-- **C10, amended.** A second registration for a name is additive, not a
replacement: `startWorker` adds its batch size to the existing capacity,
unconditionally clears the paused flag, and spawns a new poll-loop goroutine
exactly when the capacity before the call was below 1.  (Because a loop exits
only on unregistration, re-registering a name whose capacity was reduced to
zero — or whose shut-down loop has not yet observed its unregistration — can
leave more than one loop running for the name; at most one loop per name
holds only in the absence of such re-registrations.) -/
theorem startWorker_additive_spec (s : TaskRunnerState) (n : String)
    (f : ExecuteTaskFunction) (b i : Int) (d : String) :
    getMaxAllowedWorkers (startWorker s n f b i d).state n =
      getMaxAllowedWorkers s n + b ∧
    isPaused (startWorker s n f b i d).state n = false ∧
    ((startWorker s n f b i d).spawned = true ↔ getMaxAllowedWorkers s n < 1) ∧
    activeLoopCount (startWorker s n f b i d).state n =
      activeLoopCount s n + (if getMaxAllowedWorkers s n < 1 then 1 else 0) :=
  ⟨startWorker_batch_self s n f b i d, startWorker_paused_self s n f b i d,
    startWorker_spawned_iff s n f b i d, startWorker_loops_self s n f b i d⟩

/-! ## C8: after Shutdown no further polls are issued for the name -/
theorem workOnce_events_polled (s : TaskRunnerState) (m : String)
    (pollFn : Int → Except String (List Task)) (n : String) (c : Int)
    (hmem : Event.polled n c ∈ (workOnce s m pollFn).events) : n = m := by
  by_cases hp : isPaused s m
  · simp [workOnce, hp] at hmem
  · by_cases hlt : getAvailableWorkerAmount s m < 1
    · simp [workOnce, hp, hlt] at hmem
    · cases hpoll : pollFn (getAvailableWorkerAmount s m) with
      | error e =>
        simp [workOnce, hp, hlt, hpoll] at hmem
        exact hmem.1
      | ok tasks =>
        by_cases hlen : tasks.length < 1
        · cases hint : GetPollIntervalForTask s m with
          | error e =>
            simp [workOnce, hp, hlt, hpoll, hlen, hint] at hmem
            exact hmem.1
          | ok d =>
            simp [workOnce, hp, hlt, hpoll, hlen, hint] at hmem
            exact hmem.1
        · simp [workOnce, hp, hlt, hpoll, hlen, dispatchAll_events] at hmem
          exact hmem.1

theorem executeAndUpdateTask_events_no_polled (s : TaskRunnerState) (m : String)
    (t : Task) (f : ExecuteTaskFunction) (upd : Nat → Except String Unit)
    (n : String) (c : Int) :
    Event.polled n c ∉ (executeAndUpdateTask s m t f upd).events := by
  unfold executeAndUpdateTask
  split <;> simp

theorem step_unregistered (s : TaskRunnerState) (op : Op) (n : String)
    (hreg : isWorkerRegistered s n = false)
    (hop : opRegistersName op n = false) :
    isWorkerRegistered (step s op).1 n = false ∧
    activeLoopCount (step s op).1 n ≤ activeLoopCount s n ∧
    ∀ c, Event.polled n c ∉ (step s op).2 := by
  cases op with
  | opStartWorker m f b i d =>
    simp only [opRegistersName, decide_eq_false_iff_not] at hop
    simp only [step]
    refine ⟨?_, ?_, ?_⟩
    · rw [startWorker_registered_ne s m n f b i d hop]
      exact hreg
    · rw [startWorker_loops_ne s m n f b i d hop]
    · intro c
      split <;> simp
  | opRegisterWorker w =>
    cases w with
    | none => exact ⟨hreg, le_refl _, by simp [step, RegisterWorker]⟩
    | some w =>
      simp only [opRegistersName, decide_eq_false_iff_not] at hop
      simp only [step, RegisterWorker]
      by_cases hw : w.pollTimeoutMs ≠ 0
      · rw [if_pos hw]
        refine ⟨?_, ?_, ?_⟩
        · rw [startWorker_registered_ne _ _ _ _ _ _ _ hop]
          exact hreg
        · rw [startWorker_loops_ne _ _ _ _ _ _ _ hop]
          exact le_refl _
        · intro c
          split <;> simp
      · rw [if_neg hw]
        refine ⟨?_, ?_, ?_⟩
        · rw [startWorker_registered_ne _ _ _ _ _ _ _ hop]
          exact hreg
        · rw [startWorker_loops_ne _ _ _ _ _ _ _ hop]
          exact le_refl _
        · intro c
          split <;> simp
  | opSetBatchSize m b =>
    simp only [step]
    cases hsb : SetBatchSize s m b with
    | error e => exact ⟨hreg, le_refl _, by simp⟩
    | ok s' =>
      obtain ⟨-, hregm, rfl⟩ := SetBatchSize_ok s m b s' hsb
      have hmn : m ≠ n := by
        intro hh
        rw [hh, hreg] at hregm
        cases hregm
      refine ⟨?_, le_refl _, by simp⟩
      unfold isWorkerRegistered
      show (mapLookup (mapInsert s.batchSizeByTaskName m b) n).isSome = false
      rw [mapLookup_insert_ne _ _ _ _ hmn]
      exact hreg
  | opIncreaseBatchSize m b =>
    simp only [step]
    cases hsb : IncreaseBatchSize s m b with
    | error e => exact ⟨hreg, le_refl _, by simp⟩
    | ok s' =>
      obtain ⟨-, hregm, rfl⟩ := IncreaseBatchSize_ok s m b s' hsb
      have hmn : m ≠ n := by
        intro hh
        rw [hh, hreg] at hregm
        cases hregm
      refine ⟨?_, le_refl _, by simp⟩
      unfold isWorkerRegistered
      show (mapLookup (mapInsert s.batchSizeByTaskName m
        (getMaxAllowedWorkers s m + b)) n).isSome = false
      rw [mapLookup_insert_ne _ _ _ _ hmn]
      exact hreg
  | opDecreaseBatchSize m b =>
    simp only [step]
    cases hsb : DecreaseBatchSize s m b with
    | error e => exact ⟨hreg, le_refl _, by simp⟩
    | ok s' =>
      obtain ⟨-, hregm, -, -, hlkne, -, hloops, -⟩ := DecreaseBatchSize_ok s m b s' hsb
      have hmn : m ≠ n := by
        intro hh
        rw [hh, hreg] at hregm
        cases hregm
      refine ⟨?_, ?_, by simp⟩
      · unfold isWorkerRegistered
        show (mapLookup s'.batchSizeByTaskName n).isSome = false
        rw [hlkne n (fun hh => hmn hh.symm)]
        exact hreg
      · rw [show activeLoopCount s' n = activeLoopCount s n from
          activeLoopCount_congr hloops n]
  | opPause m => exact ⟨hreg, le_refl _, by simp [step]⟩
  | opResume m => exact ⟨hreg, le_refl _, by simp [step]⟩
  | opShutdown m =>
    simp only [step]
    refine ⟨?_, le_refl _, by simp⟩
    by_cases hmn : m = n
    · subst hmn
      unfold isWorkerRegistered Shutdown
      simp [mapLookup_erase_self]
    · unfold isWorkerRegistered Shutdown
      show (mapLookup (mapErase s.batchSizeByTaskName m) n).isSome = false
      rw [mapLookup_erase_ne _ _ _ hmn]
      exact hreg
  | opLoopIter m pollFn =>
    simp only [step]
    by_cases hg : 1 ≤ activeLoopCount s m ∧ isWorkerRegistered s m = true
    · rw [if_pos hg]
      have hmn : m ≠ n := by
        intro hh
        rw [hh, hreg] at hg
        cases hg.2
      refine ⟨?_, ?_, ?_⟩
      · rw [isWorkerRegistered_congr (workOnce_batchSize s m pollFn)]
        exact hreg
      · rw [activeLoopCount_congr (workOnce_activeLoops s m pollFn)]
      · intro c hc
        exact hmn (workOnce_events_polled s m pollFn n c hc).symm
    · rw [if_neg hg]
      exact ⟨hreg, le_refl _, by simp⟩
  | opLoopExit m =>
    simp only [step]
    by_cases hg : 1 ≤ activeLoopCount s m ∧ ¬ isWorkerRegistered s m = true
    · rw [if_pos hg]
      refine ⟨hreg, ?_, by simp⟩
      by_cases hmn : m = n
      · subst hmn
        rw [exitLoop_count_self]
        omega
      · rw [exitLoop_count_ne s m n hmn]
    · rw [if_neg hg]
      exact ⟨hreg, le_refl _, by simp⟩
  | opExecFinish m t f upd =>
    simp only [step]
    by_cases hg : 1 ≤ getRunningWorkers s m
    · rw [if_pos hg]
      refine ⟨?_, ?_, ?_⟩
      · rw [show (executeAndUpdateTask s m t f upd).state = runningWorkerDone s m from
          executeAndUpdateTask_state s m t f upd]
        exact hreg
      · rw [show (executeAndUpdateTask s m t f upd).state = runningWorkerDone s m from
          executeAndUpdateTask_state s m t f upd]
        exact le_refl _
      · intro c
        exact executeAndUpdateTask_events_no_polled s m t f upd n c
    · rw [if_neg hg]
      exact ⟨hreg, le_refl _, by simp⟩

theorem runOps_unregistered (n : String) : ∀ (ops : List Op) (s : TaskRunnerState),
    isWorkerRegistered s n = false →
    (∀ op ∈ ops, opRegistersName op n = false) →
    isWorkerRegistered (runOps s ops).1 n = false ∧
    activeLoopCount (runOps s ops).1 n ≤ activeLoopCount s n ∧
    ∀ c, Event.polled n c ∉ (runOps s ops).2
  | [], s, h, _ => ⟨h, le_refl _, by simp [runOps]⟩
  | op :: rest, s, h, hops => by
    obtain ⟨h1, h2, h3⟩ := step_unregistered s op n h (hops op (by simp))
    obtain ⟨h4, h5, h6⟩ :=
      runOps_unregistered n rest (step s op).1 h1 (fun o ho => hops o (by simp [ho]))
    refine ⟨h4, le_trans h5 h2, ?_⟩
    intro c hc
    rw [show (runOps s (op :: rest)).2 =
      (step s op).2 ++ (runOps (step s op).1 rest).2 from rfl] at hc
    rcases List.mem_append.mp hc with hm | hm
    · exact h3 c hm
    · exact h6 c hm

/-- **C8.** From any state in which a task name is unregistered (as `Shutdown`
leaves it), along any sequence of steps containing no registration for that
name: the name stays unregistered, no batch poll is ever issued for it (the
loop, which re-checks registration before each `workOnce`, never iterates
again), the number of its poll loops never grows — in particular `Pause` and
`Resume` never restart an exited loop — and executions still in flight for the
name may still finish and hand their result to the reporter. -/
theorem shutdown_stops_polling (s : TaskRunnerState) (n : String) (ops : List Op)
    (hreg : isWorkerRegistered s n = false)
    (hops : ∀ op ∈ ops, opRegistersName op n = false) :
    isWorkerRegistered (runOps s ops).1 n = false ∧
    activeLoopCount (runOps s ops).1 n ≤ activeLoopCount s n ∧
    (∀ c, Event.polled n c ∉ (runOps s ops).2) ∧
    (∀ (t : Task) (out : Option String) (upd : Nat → Except String Unit),
      1 ≤ getRunningWorkers s n →
      (step s (Op.opExecFinish n t (some fun _ => HandlerOutcome.success out) upd)).2.any
        isReportedEvent = true) := by
  obtain ⟨h1, h2, h3⟩ := runOps_unregistered n ops s hreg hops
  refine ⟨h1, h2, h3, ?_⟩
  intro t out upd hrun
  simp [step, hrun, executeAndUpdateTask, executeTask, callHandler,
    GetTaskResultFromTaskExecutionOutput, isReportedEvent]

/-- Witness for C8: an unregistered "t" with one winding-down loop and one
in-flight execution; pause/resume/iterate/exit steps never re-register it, and
the in-flight execution still reports. -/
theorem shutdown_stops_polling_witness :
    isWorkerRegistered (runOps c8State c8Ops).1 "t" = false ∧
    activeLoopCount (runOps c8State c8Ops).1 "t" ≤ activeLoopCount c8State "t" ∧
    (step c8State (Op.opExecFinish "t" sampleTask
        (some fun _ => HandlerOutcome.success none) c5Upd)).2.any isReportedEvent = true := by
  have h := shutdown_stops_polling c8State "t" c8Ops (by decide)
    (by intro op hop; fin_cases hop <;> rfl)
  exact ⟨h.1, h.2.1, h.2.2.2 sampleTask none c5Upd (by decide)⟩

/-! ## C6: DecreaseBatchSize clamps at zero; availability with work in flight -/

/-- **C6, counterexample.** With capacity 3 and 2 executions in flight,
`DecreaseBatchSize "t" 3` clamps the capacity to 0 — but
`getAvailableWorkerAmount` then returns `0 - running = -2`, not 0 as the
claim states (it returns 0 only once nothing is in flight). -/
theorem decreaseBatchSize_available_counterexample :
    DecreaseBatchSize c6State "t" 3 = .ok c6After ∧
    getMaxAllowedWorkers c6After "t" = 0 ∧
    getAvailableWorkerAmount c6After "t" = -2 ∧
    getAvailableWorkerAmount c6After "t" ≠ 0 := by
  refine ⟨by rfl, rfl, rfl, by decide⟩

/-- **C6, amended.** For a registered task name and positive delta,
`DecreaseBatchSize` stores `max(old - d, 0)` — never a negative capacity —
and when the result is zero, `getAvailableWorkerAmount` returns `0 - running`
(which is ≤ 0, and exactly 0 once no execution is in flight), so the poll
loop issues no batch poll and dispatches nothing until capacity increases. -/
theorem decreaseBatchSize_clamps_spec (s : TaskRunnerState) (n : String) (d : Int)
    (hd : 1 ≤ d) (hreg : isWorkerRegistered s n = true)
    (hrun : 0 ≤ getRunningWorkers s n) :
    ∃ s', DecreaseBatchSize s n d = .ok s' ∧
      getMaxAllowedWorkers s' n = max (getMaxAllowedWorkers s n - d) 0 ∧
      0 ≤ getMaxAllowedWorkers s' n ∧
      (getMaxAllowedWorkers s n - d ≤ 0 →
        getMaxAllowedWorkers s' n = 0 ∧
        getAvailableWorkerAmount s' n = 0 - getRunningWorkers s n ∧
        getAvailableWorkerAmount s' n ≤ 0 ∧
        ∀ pollFn, (workOnce s' n pollFn).polled = none ∧
          (workOnce s' n pollFn).state = s') := by
  have hok : ∃ s', DecreaseBatchSize s n d = .ok s' := by
    unfold DecreaseBatchSize
    rw [if_neg (by omega), if_neg (by simp [hreg])]
    by_cases h3 : getMaxAllowedWorkers s n - d ≤ 0
    · rw [if_pos h3]; exact ⟨_, rfl⟩
    · rw [if_neg h3]; exact ⟨_, rfl⟩
  obtain ⟨s', hs'⟩ := hok
  obtain ⟨-, -, hmax, -, -, hrunning, -, -⟩ := DecreaseBatchSize_ok s n d s' hs'
  have hrun' : getRunningWorkers s' n = getRunningWorkers s n := by
    unfold getRunningWorkers
    rw [hrunning]
  refine ⟨s', hs', hmax, by rw [hmax]; omega, ?_⟩
  intro h0
  have hm0 : getMaxAllowedWorkers s' n = 0 := by rw [hmax]; omega
  have hav : getAvailableWorkerAmount s' n = 0 - getRunningWorkers s n := by
    unfold getAvailableWorkerAmount
    rw [hm0, hrun']
  refine ⟨hm0, hav, by omega, ?_⟩
  intro pollFn
  by_cases hp : isPaused s' n
  · simp [workOnce, hp]
  · have hlt : getAvailableWorkerAmount s' n < 1 := by omega
    simp [workOnce, hp, hlt]

/-- Witness for the amended C6 at the concrete clamping state. -/
theorem decreaseBatchSize_clamps_spec_witness :
    getMaxAllowedWorkers c6After "t" = max (getMaxAllowedWorkers c6State "t" - 3) 0 ∧
    (workOnce c6After "t" c6Poll).polled = none := by
  obtain ⟨s', hs', hmax, -, hrest⟩ :=
    decreaseBatchSize_clamps_spec c6State "t" 3 (by decide) (by decide) (by decide)
  have hs'' : s' = c6After :=
    (Except.ok.inj (decreaseBatchSize_available_counterexample.1.symm.trans hs')).symm
  subst hs''
  exact ⟨hmax, (((hrest (by decide)).2.2.2) c6Poll).1⟩

/-! ## C7: configuration errors are rejected synchronously, state unchanged -/
/-- **C7.** Mutating an unregistered task name fails: `SetBatchSize`,
`IncreaseBatchSize` and `DecreaseBatchSize` each return an error and the
corresponding step leaves the whole engine state unchanged; likewise a
negative `SetBatchSize` and a non-positive delta for increase/decrease are
rejected with the state unchanged, whatever the registration status. -/
theorem batchSizeMutation_rejects_invalid (s : TaskRunnerState) (n : String) (b : Int) :
    (isWorkerRegistered s n = false →
      (∃ e, SetBatchSize s n b = .error e) ∧
      (∃ e, IncreaseBatchSize s n b = .error e) ∧
      (∃ e, DecreaseBatchSize s n b = .error e)) ∧
    (b < 0 → ∃ e, SetBatchSize s n b = .error e) ∧
    (b < 1 →
      (∃ e, IncreaseBatchSize s n b = .error e) ∧
      (∃ e, DecreaseBatchSize s n b = .error e)) ∧
    ((∃ e, SetBatchSize s n b = .error e) →
      step s (Op.opSetBatchSize n b) = (s, [])) ∧
    ((∃ e, IncreaseBatchSize s n b = .error e) →
      step s (Op.opIncreaseBatchSize n b) = (s, [])) ∧
    ((∃ e, DecreaseBatchSize s n b = .error e) →
      step s (Op.opDecreaseBatchSize n b) = (s, [])) := by
  refine ⟨?_, ?_, ?_, ?_, ?_, ?_⟩
  · intro hreg
    refine ⟨?_, ?_, ?_⟩
    · unfold SetBatchSize
      by_cases hb : b < 0
      · rw [if_pos hb]; exact ⟨_, rfl⟩
      · refine ⟨"no worker registered for taskName: " ++ n, ?_⟩
        rw [if_neg hb, hreg]
        rfl
    · unfold IncreaseBatchSize
      by_cases hb : b < 1
      · rw [if_pos hb]; exact ⟨_, rfl⟩
      · refine ⟨"no worker registered for taskName: " ++ n, ?_⟩
        rw [if_neg hb, hreg]
        rfl
    · unfold DecreaseBatchSize
      by_cases hb : b < 1
      · rw [if_pos hb]; exact ⟨_, rfl⟩
      · refine ⟨"no worker registered for taskName: " ++ n, ?_⟩
        rw [if_neg hb, hreg]
        rfl
  · intro hb
    unfold SetBatchSize
    rw [if_pos hb]
    exact ⟨_, rfl⟩
  · intro hb
    constructor
    · unfold IncreaseBatchSize
      rw [if_pos hb]
      exact ⟨_, rfl⟩
    · unfold DecreaseBatchSize
      rw [if_pos hb]
      exact ⟨_, rfl⟩
  · intro ⟨e, he⟩
    simp [step, he]
  · intro ⟨e, he⟩
    simp [step, he]
  · intro ⟨e, he⟩
    simp [step, he]

/-- Witness for C7: mutating the never-registered name "ghost" of a fresh
runner errors and leaves the state unchanged, as does a non-positive delta. -/
theorem batchSizeMutation_rejects_invalid_witness :
    step NewTaskRunnerWithApiClient (Op.opIncreaseBatchSize "ghost" 5) =
      (NewTaskRunnerWithApiClient, []) ∧
    step NewTaskRunnerWithApiClient (Op.opSetBatchSize "ghost" (-1)) =
      (NewTaskRunnerWithApiClient, []) := by
  have h1 := batchSizeMutation_rejects_invalid NewTaskRunnerWithApiClient "ghost" 5
  have h2 := batchSizeMutation_rejects_invalid NewTaskRunnerWithApiClient "ghost" (-1)
  exact ⟨h1.2.2.2.2.1 ((h1.1 (by decide)).2.1), h2.2.2.2.1 (h2.2.1 (by decide))⟩

/-! ## C9: nil-handler registration -/
/-- **C9, counterexample.** `StartWorker` with a nil execute function is *not*
rejected: it returns no error and registers the task name (the source performs
no nil check on `executeFunction`), contradicting the claim that every
registration call with a nil handler fails synchronously. -/
theorem startWorker_nil_handler_counterexample :
    (StartWorker NewTaskRunnerWithApiClient "t" none 1 100).ret = .ok () ∧
    isWorkerRegistered (StartWorker NewTaskRunnerWithApiClient "t" none 1 100).state "t" =
      true :=
  ⟨rfl, rfl⟩

/-- **C9, amended.** `RegisterWorker` rejects a nil `Worker` synchronously
with an error and leaves the state unchanged; but `StartWorker` (and
`StartWorkerWithDomain`) perform no validation of the execute function — a nil
function is accepted, the task name is registered, and the nil handler only
faults later, at execution time, where the fault is recovered and nothing is
reported. -/
theorem registration_nil_handler_spec (s : TaskRunnerState) :
    (RegisterWorker s none).ret = .error "worker is nil" ∧
    (RegisterWorker s none).state = s ∧
    (RegisterWorker s none).spawned = false ∧
    ∀ (n : String) (b i : Int) (d : String) (t : Task)
      (upd : Nat → Except String Unit),
      (StartWorkerWithDomain s n none b i d).ret = .ok () ∧
      isWorkerRegistered (StartWorkerWithDomain s n none b i d).state n = true ∧
      callHandler none t =
        .fault "runtime error: invalid memory address or nil pointer dereference" ∧
      (executeAndUpdateTask s n t none upd).panicked = true ∧
      (executeAndUpdateTask s n t none upd).events = [Event.released n] := by
  refine ⟨rfl, rfl, rfl, ?_⟩
  intro n b i d t upd
  refine ⟨?_, startWorker_registered_self s n none b i d, rfl, ?_, ?_⟩
  · simp only [StartWorkerWithDomain, startWorker]
    split <;> rfl
  · simp [executeAndUpdateTask, executeTask, callHandler]
  · simp [executeAndUpdateTask, executeTask, callHandler]

end Conductor
